import Mathlib

/-!
Shallow embedding of the netatmo-exporter refresh-and-cache collector
(`main.go`): the data model (`DashboardData`, `Device`, the collector
state), the scrape path (`Collect`, `collectData`, `convertTime`,
`Describe`) and the refresh completion path (`refreshData`).

Modelling conventions:
* A Go `time.Time` is `Option Int`: `none` is the zero `time.Time`
  (`IsZero`), `some t` is the instant with Unix seconds `t`.  Durations
  (`refreshInterval`, `staleThreshold`) are integer seconds.
* Numeric readings (`float32`/`int32` pointers in Go) are `Option Int`:
  no claim performs arithmetic on a reading, the values only pass
  through `float64(...)` conversions unchanged, so integers suffice.
* A Prometheus metric observation is its descriptor, its value and its
  label values (`[module, station]` for sensor metrics, `[]` for the
  global gauges).  The Go `ValueType` (gauge/counter) is dropped: no
  claim mentions it.
-/

/-- Unix seconds of the zero `time.Time` (January 1, year 1 UTC):
`now.Sub(zeroTime)` in Go is `now`'s Unix seconds minus this constant. -/
def goZeroUnix : Int := -62135596800

/-- Value of `t.Unix()` for a modelled `time.Time`. -/
def timeUnix : Option Int → Int
  | none => goZeroUnix
  | some t => t

/-- Go `a.Sub(b)` on modelled times, in seconds. -/
def timeSub (a b : Option Int) : Int := timeUnix a - timeUnix b

/-- Go `t.IsZero()` on modelled times. -/
def timeIsZero : Option Int → Bool
  | none => true
  | some _ => false

/-- Embedding of `convertTime` (main.go): 0.0 for the zero time,
otherwise the Unix seconds. -/
def convertTime : Option Int → Int
  | none => 0
  | some t => t

/-- Embedding of `netatmo.DashboardData`: the measurement set, every
field an optional scalar, plus the capture timestamp `LastMeasure`. -/
structure DashboardData where
  Temperature : Option Int
  Humidity : Option Int
  CO2 : Option Int
  Noise : Option Int
  Pressure : Option Int
  WindStrength : Option Int
  WindAngle : Option Int
  Rain : Option Int
  LastMeasure : Option Int
deriving DecidableEq, Repr

/-- Embedding of `netatmo.Device`: a station or module.  A station
carries its linked modules in `LinkedModules`; for a module the list is
empty. -/
structure Device where
  StationName : String
  ModuleName : String
  BatteryPercent : Option Int
  WifiStatus : Option Int
  RFStatus : Option Int
  dashboardData : DashboardData
  LinkedModules : List Device

/-- The metric descriptors defined at the top of main.go
(`netatmoUpDesc`, `refreshTimestampDesc`, `cacheTimestampDesc`,
`updatedDesc` and the eleven sensor gauges). -/
inductive MetricDesc where
  | up
  | lastRefreshTime
  | cacheUpdatedTime
  | updated
  | temp
  | humidity
  | co2
  | noise
  | pressure
  | windStrength
  | windDirection
  | rain
  | battery
  | wifi
  | rf
deriving DecidableEq, Repr

/-- One metric observation sent on the collect channel: descriptor,
numeric value, and label values (in the order `[module, station]` for
sensor metrics, `[]` for the three global gauges). -/
structure Metric where
  desc : MetricDesc
  value : Int
  labels : List String
deriving DecidableEq, Repr

/-- Embedding of the `netatmoCollector` struct state: configuration
durations and the mutable refresh bookkeeping.  The logger and the
upstream client are excluded collaborators; the upstream `Read()`
result is instead passed to `refreshData` explicitly. -/
structure Collector where
  refreshInterval : Int
  staleThreshold : Int
  lastRefresh : Option Int
  lastRefreshError : Option String
  cacheTimestamp : Option Int
  cachedData : Option (List Device)

/-- Helper for the `if data.X != nil { sendMetric(...) }` blocks of
`collectData`: the one-element emission for a present optional field,
nothing for an absent one. -/
def optMetric (d : MetricDesc) (v : Option Int) (moduleName stationName : String) :
    List Metric :=
  match v with
  | none => []
  | some x => [⟨d, x, [moduleName, stationName]⟩]

/-- The eleven optional fields checked by the `if ... != nil` blocks of
`collectData` (main.go lines 241-281), paired with their descriptors, in
source order: eight dashboard fields, then the three device-level
fields (battery, wifi, rf). -/
def gaugeFields (device : Device) : List (MetricDesc × Option Int) :=
  [(.temp, device.dashboardData.Temperature),
   (.humidity, device.dashboardData.Humidity),
   (.co2, device.dashboardData.CO2),
   (.noise, device.dashboardData.Noise),
   (.pressure, device.dashboardData.Pressure),
   (.windStrength, device.dashboardData.WindStrength),
   (.windDirection, device.dashboardData.WindAngle),
   (.rain, device.dashboardData.Rain),
   (.battery, device.BatteryPercent),
   (.wifi, device.WifiStatus),
   (.rf, device.RFStatus)]

/-- The eleven optional-field gauge emissions of `collectData`: one
gauge per present field, absent fields skipped individually. -/
def sensorGauges (device : Device) (stationName : String) : List Metric :=
  (gaugeFields device).flatMap
    (fun p => optMetric p.1 p.2 device.ModuleName stationName)

/-- Embedding of `netatmoCollector.collectData`: nothing when
`LastMeasure` is nil; nothing when `time.Since(date) > staleThreshold`;
otherwise the `updated` metric (value `date.UTC().Unix()`, which is
`LastMeasure` itself) followed by one gauge per present field.  `now`
stands for the evaluation instant of `time.Since`. -/
def collectData (staleThreshold now : Int) (device : Device) (stationName : String) :
    List Metric :=
  let moduleName := device.ModuleName
  let data := device.dashboardData
  match data.LastMeasure with
  | none => []
  | some lastMeasure =>
    if staleThreshold < now - lastMeasure then []
    else ⟨.updated, lastMeasure, [moduleName, stationName]⟩ :: sensorGauges device stationName

/-- Result of one `Collect` call: whether the gate at main.go line 180
fired (dispatching `go c.refreshData(now)`), and the metrics sent on
the channel.  `Collect` performs no synchronous write to the collector
state: the spawned `refreshData` goroutine applies its writes later. -/
structure CollectResult where
  dispatch : Bool
  metrics : List Metric
deriving Repr

/-- Embedding of `netatmoCollector.Collect` at instant `now`:
evaluate the refresh gate `now.Sub(c.lastRefresh) >= c.refreshInterval`,
emit `up` (0 when `lastRefresh.IsZero()` or `lastRefreshError != nil`),
`last_refresh_time`, `cache_updated_time`, then for each cached device
its own data and its linked modules' data, all under the station's
`StationName` as the station label. -/
def upValue (c : Collector) : Int :=
  if timeIsZero c.lastRefresh || c.lastRefreshError.isSome then 0 else 1

/-- The three unlabelled gauges `Collect` always emits (main.go lines
184-194): `up`, `last_refresh_time`, `cache_updated_time`. -/
def collectGlobals (c : Collector) : List Metric :=
  [⟨.up, upValue c, []⟩,
   ⟨.lastRefreshTime, convertTime c.lastRefresh, []⟩,
   ⟨.cacheUpdatedTime, convertTime c.cacheTimestamp, []⟩]

/-- The per-device emissions of `Collect` (main.go lines 195-204): for
each cached device, its own data and then each linked module's data,
both labelled with the station's `StationName`. -/
def collectSensors (c : Collector) (now : Int) : List Metric :=
  match c.cachedData with
  | none => []
  | some devs =>
    devs.flatMap (fun dev =>
      collectData c.staleThreshold now dev dev.StationName
      ++ dev.LinkedModules.flatMap
          (fun m => collectData c.staleThreshold now m dev.StationName))

def Collect (c : Collector) (now : Int) : CollectResult :=
  ⟨c.refreshInterval ≤ timeSub (some now) c.lastRefresh,
   collectGlobals c ++ collectSensors c now⟩

/-- Embedding of `netatmoCollector.refreshData(now)` run to completion
with upstream `Read()` returning `result`: first `lastRefresh = now`;
on error, record it and return; on success, set `cacheTimestamp = now`
and swap in the devices.  Note the success branch leaves
`lastRefreshError` untouched, exactly as the source does. -/
def refreshData (c : Collector) (now : Int) (result : Except String (List Device)) :
    Collector :=
  let c1 := { c with lastRefresh := some now }
  match result with
  | .error e => { c1 with lastRefreshError := some e }
  | .ok devices => { c1 with cacheTimestamp := some now, cachedData := some devices }

/-- Embedding of `netatmoCollector.Describe`: the descriptors actually
sent on the describe channel (main.go lines 171-176). -/
def Describe : List MetricDesc := [.updated, .temp, .humidity, .co2]

/-- Modelled from the spec: the `shouldRefresh` contract of section 4.1,
`!inProgress && now - lastAttempt >= interval`.  The source has no
in-progress flag at all, so this definition follows the spec's words,
for comparison with the gate embedded in `Collect`. -/
def shouldRefreshSpec (now lastAttempt interval : Int) (inProgress : Bool) : Bool :=
  !inProgress && decide (interval ≤ now - lastAttempt)

/-- Modelled from the spec: the complete section 6 metric identity
list that the spec requires `Describe()` to return. -/
def describeSpec : List MetricDesc :=
  [.up, .lastRefreshTime, .cacheUpdatedTime, .updated, .temp, .humidity, .co2,
   .noise, .pressure, .windStrength, .windDirection, .rain, .battery, .wifi, .rf]

/-- The collector state at construction (main.go lines 38-43): durations
configured, zero `lastRefresh`, no error, no cache. -/
def initialCollector (interval stale : Int) : Collector :=
  { refreshInterval := interval, staleThreshold := stale, lastRefresh := none,
    lastRefreshError := none, cacheTimestamp := none, cachedData := none }

/-- Number of refreshes dispatched by a burst of scrapes arriving at the
given instants, in a schedule where none of the spawned `refreshData`
goroutines has executed yet.  This schedule is allowed by the source:
`go c.refreshData(now)` performs no synchronous write, so every scrape
of the burst evaluates the gate on the same collector state. -/
def scrapeBurstDispatches (c : Collector) (times : List Int) : Nat :=
  (times.filter (fun t => (Collect c t).dispatch)).length

/-- Number of observations in a metric list carrying descriptor `d`. -/
def countD (d : MetricDesc) (ms : List Metric) : Nat :=
  ms.countP (fun m => m.desc == d)

/-- Whether the optional field behind gauge descriptor `d` is present on
`device`; false for the non-gauge descriptors. -/
def fieldPresent (d : MetricDesc) (device : Device) : Bool :=
  match d with
  | .temp => device.dashboardData.Temperature.isSome
  | .humidity => device.dashboardData.Humidity.isSome
  | .co2 => device.dashboardData.CO2.isSome
  | .noise => device.dashboardData.Noise.isSome
  | .pressure => device.dashboardData.Pressure.isSome
  | .windStrength => device.dashboardData.WindStrength.isSome
  | .windDirection => device.dashboardData.WindAngle.isSome
  | .rain => device.dashboardData.Rain.isSome
  | .battery => device.BatteryPercent.isSome
  | .wifi => device.WifiStatus.isSome
  | .rf => device.RFStatus.isSome
  | _ => false

/-- The descriptors of the eleven per-sensor gauges. -/
def gaugeDescs : List MetricDesc :=
  [.temp, .humidity, .co2, .noise, .pressure, .windStrength, .windDirection,
   .rain, .battery, .wifi, .rf]

/-- Label lists of the `sensor_updated` observations of a metric list,
in emission order. -/
def updatedPairs (ms : List Metric) : List (List String) :=
  (ms.filter (fun m => m.desc == .updated)).map (fun m => m.labels)

/-- The (module label, station label) pairs of all sensor-bearing
entities of a device list, in the order `Collect` visits them: each
station itself, then its linked modules, all under the station's
`StationName`. -/
def entityPairs (devs : List Device) : List (List String) :=
  devs.flatMap (fun dev =>
    [dev.ModuleName, dev.StationName]
    :: dev.LinkedModules.map (fun m => [m.ModuleName, dev.StationName]))

/-- All sensor-bearing entities of a device list: the N stations and
their M linked modules. -/
def allEntities (devs : List Device) : List Device :=
  devs.flatMap (fun dev => dev :: dev.LinkedModules)

/-- Whether an entity passes the staleness gate of `collectData`:
`LastMeasure` present and `now - LastMeasure <= staleThreshold`. -/
def freshB (staleThreshold now : Int) (device : Device) : Bool :=
  match device.dashboardData.LastMeasure with
  | none => false
  | some lm => now - lm ≤ staleThreshold

/-- Collector state while a refresh is in flight: the gate fired at
t = 60, the spawned `refreshData` executed its first statement
(`lastRefresh = now`), and the upstream `Read()` call is still pending,
so neither the error nor the cache has been written yet. -/
def cInFlight : Collector :=
  { refreshInterval := 60, staleThreshold := 120, lastRefresh := some 60,
    lastRefreshError := none, cacheTimestamp := none, cachedData := none }

/-- C1: the spec's gate `shouldRefresh(now, lastAttempt, interval,
inProgress)` returns false whenever a refresh is in progress; the gate
embedded in `Collect` (main.go line 180) has no in-progress input at
all, and in the in-flight state `cInFlight` a scrape at t = 121 with
interval 60 dispatches a second refresh, which the spec's gate forbids
(`shouldRefreshSpec 121 60 60 true = false`). -/
theorem c1_code_gate_ignores_in_flight :
    (Collect cInFlight 121).dispatch = true
    ∧ shouldRefreshSpec 121 60 60 true = false := by
  constructor <;> rfl

/-- Collector state after one completed refresh at t = 0: ready for the
next refresh at t = 60 with interval 60. -/
def cReady : Collector :=
  { refreshInterval := 60, staleThreshold := 120, lastRefresh := some 0,
    lastRefreshError := none, cacheTimestamp := some 0, cachedData := some [] }

/-- C2: two scrapes arriving at the same instant t = 60, both running
before either spawned `refreshData` goroutine is scheduled (a schedule
the source permits, since `go c.refreshData(now)` writes nothing
synchronously), each see `lastRefresh = 0` and both dispatch: two
refreshes are put in flight, where the claim requires exactly one. -/
theorem c2_duplicate_dispatch :
    scrapeBurstDispatches cReady [60, 60] = 2 := by
  rfl

/-- Collector state in which the previous refresh attempt failed with
error "boom" at t = 60. -/
def cAfterFailure : Collector :=
  refreshData (initialCollector 60 120) 60 (.error "boom")

/-- C3: a successful refresh at t = 120 after the failure at t = 60
publishes the new snapshot (cacheTimestamp 120, fresh device list) but
does NOT clear `lastRefreshError`: the success branch of `refreshData`
(main.go lines 218-221) never writes that field, so the stale error
"boom" survives, contradicting the claim (and the `up` help text
"Zero if there was an error during the last refresh try"). -/
theorem c3_success_keeps_stale_error :
    (refreshData cAfterFailure 120 (.ok [])).lastRefreshError = some "boom"
    ∧ (refreshData cAfterFailure 120 (.ok [])).cacheTimestamp = some 120
    ∧ (refreshData cAfterFailure 120 (.ok [])).cachedData = some [] :=
  ⟨rfl, rfl, rfl⟩

/-- Collector state after a failed refresh at t = 60 followed by a
successful refresh at t = 120: the last completed refresh succeeded. -/
def cAfterRecovery : Collector :=
  refreshData cAfterFailure 120 (.ok [])

/-- C4: scraping `cAfterRecovery` at t = 130 emits the `up` gauge with
value 0, although at least one refresh has completed and the last
completed refresh succeeded — the claim requires 1.0 here.  The cause is
the stale `lastRefreshError` retained by the success branch of
`refreshData`. -/
theorem c4_up_zero_after_recovery :
    (Collect cAfterRecovery 130).metrics.head? = some ⟨.up, 0, []⟩
    ∧ cAfterRecovery.lastRefreshError = some "boom" :=
  ⟨rfl, rfl⟩

/-- C7: `Describe` sends only four descriptors (updated, temperature,
humidity, CO2); the `up` gauge and the noise gauge — among eleven
identities of the section 6 table — are missing, so `Describe` is not
the complete static list `describeSpec`. -/
theorem c7_describe_incomplete :
    Describe.length = 4
    ∧ MetricDesc.up ∉ Describe
    ∧ MetricDesc.noise ∉ Describe
    ∧ describeSpec.length = 15 := by
  refine ⟨rfl, ?_, ?_, rfl⟩ <;> decide

/-- C8: in any state where no refresh has ever been attempted
(`lastRefresh` zero) and no snapshot has ever been published
(`cacheTimestamp` zero, `cachedData` nil), a scrape emits exactly
up = 0, last_refresh_time = 0, cache_updated_time = 0, and no sensor
metrics. -/
theorem c8_first_scrape (c : Collector) (now : Int)
    (h1 : c.lastRefresh = none) (h2 : c.cacheTimestamp = none)
    (h3 : c.cachedData = none) :
    (Collect c now).metrics =
      [⟨.up, 0, []⟩, ⟨.lastRefreshTime, 0, []⟩, ⟨.cacheUpdatedTime, 0, []⟩] := by
  simp [Collect, collectGlobals, collectSensors, upValue, h1, h2, h3,
    timeIsZero, convertTime]

/-- Witness for C8 at the freshly constructed collector and t = 0. -/
theorem c8_first_scrape_witness :
    (Collect (initialCollector 60 120) 0).metrics =
      [⟨.up, 0, []⟩, ⟨.lastRefreshTime, 0, []⟩, ⟨.cacheUpdatedTime, 0, []⟩] :=
  c8_first_scrape (initialCollector 60 120) 0 rfl rfl rfl

/-- Membership in an `optMetric` block: only the present-field singleton. -/
theorem mem_optMetric {m : Metric} {d : MetricDesc} {v : Option Int}
    {mo st : String} :
    m ∈ optMetric d v mo st ↔ ∃ x, v = some x ∧ m = ⟨d, x, [mo, st]⟩ := by
  cases v <;> simp [optMetric, eq_comm]

/-- Every gauge emitted by `sensorGauges` carries the labels
`[ModuleName, stationName]`. -/
theorem labels_of_mem_sensorGauges {m : Metric} {dev : Device} {s : String}
    (h : m ∈ sensorGauges dev s) : m.labels = [dev.ModuleName, s] := by
  simp only [sensorGauges, List.mem_flatMap] at h
  obtain ⟨p, _, hp⟩ := h
  obtain ⟨x, _, rfl⟩ := mem_optMetric.mp hp
  rfl

/-- Every gauge emitted by `sensorGauges` has one of the eleven gauge
descriptors. -/
theorem desc_of_mem_sensorGauges {m : Metric} {dev : Device} {s : String}
    (h : m ∈ sensorGauges dev s) : m.desc ∈ gaugeDescs := by
  simp only [sensorGauges, List.mem_flatMap] at h
  obtain ⟨p, hpm, hp⟩ := h
  obtain ⟨x, _, rfl⟩ := mem_optMetric.mp hp
  simp only [gaugeFields, List.mem_cons, List.not_mem_nil, or_false] at hpm
  rcases hpm with h|h|h|h|h|h|h|h|h|h|h <;> subst h <;> simp [gaugeDescs]

/-- No `sensorGauges` emission carries the `updated` descriptor. -/
theorem updated_not_mem_sensorGauges {m : Metric} {dev : Device} {s : String}
    (h : m ∈ sensorGauges dev s) : m.desc ≠ .updated := by
  have hd := desc_of_mem_sensorGauges h
  revert hd
  exact fun hd => by
    have : ∀ d ∈ gaugeDescs, d ≠ MetricDesc.updated := by decide
    exact this m.desc hd

/-- The three branches of `collectData`, as rewriting equations. -/
theorem collectData_of_none {t n : Int} {dev : Device} {s : String}
    (h : dev.dashboardData.LastMeasure = none) :
    collectData t n dev s = [] := by
  simp only [collectData, h]

theorem collectData_of_stale {t n lm : Int} {dev : Device} {s : String}
    (h : dev.dashboardData.LastMeasure = some lm) (hs : t < n - lm) :
    collectData t n dev s = [] := by
  simp only [collectData, h]
  exact if_pos hs

theorem collectData_of_fresh {t n lm : Int} {dev : Device} {s : String}
    (h : dev.dashboardData.LastMeasure = some lm) (hf : n - lm ≤ t) :
    collectData t n dev s =
      ⟨.updated, lm, [dev.ModuleName, s]⟩ :: sensorGauges dev s := by
  simp only [collectData, h]
  exact if_neg (not_lt.mpr hf)

/-- Every metric emitted by `collectData` carries the labels
`[ModuleName, stationName]`. -/
theorem labels_of_mem_collectData {m : Metric} {t n : Int} {dev : Device}
    {s : String} (h : m ∈ collectData t n dev s) :
    m.labels = [dev.ModuleName, s] := by
  cases hl : dev.dashboardData.LastMeasure with
  | none => rw [collectData_of_none hl] at h; exact absurd h (List.not_mem_nil m)
  | some lm =>
    by_cases hs : t < n - lm
    · rw [collectData_of_stale hl hs] at h
      exact absurd h (List.not_mem_nil m)
    · rw [collectData_of_fresh hl (not_lt.mp hs)] at h
      rcases List.mem_cons.mp h with rfl | h
      · rfl
      · exact labels_of_mem_sensorGauges h

/-- Whenever `collectData` emits anything, it emits an `updated`
observation labelled `[ModuleName, stationName]`. -/
theorem updated_mem_collectData_of_mem {m : Metric} {t n : Int} {dev : Device}
    {s : String} (h : m ∈ collectData t n dev s) :
    ∃ lm : Int,
      (⟨.updated, lm, [dev.ModuleName, s]⟩ : Metric) ∈ collectData t n dev s := by
  cases hl : dev.dashboardData.LastMeasure with
  | none => rw [collectData_of_none hl] at h; exact absurd h (List.not_mem_nil m)
  | some lm =>
    by_cases hs : t < n - lm
    · rw [collectData_of_stale hl hs] at h
      exact absurd h (List.not_mem_nil m)
    · exact ⟨lm, by rw [collectData_of_fresh hl (not_lt.mp hs)]; exact List.mem_cons_self _ _⟩

theorem countD_append (d : MetricDesc) (a b : List Metric) :
    countD d (a ++ b) = countD d a + countD d b := by
  simp [countD, List.countP_append]

theorem countD_optMetric (d dp : MetricDesc) (v : Option Int) (mo st : String) :
    countD d (optMetric dp v mo st) =
      if dp = d ∧ v.isSome = true then 1 else 0 := by
  cases v <;> by_cases h : dp = d <;>
    simp [optMetric, countD, List.countP_cons, h]

/-- Each of the eleven gauge descriptors is emitted by `sensorGauges`
exactly once when its field is present and never when it is absent; the
non-gauge descriptors are never emitted. -/
theorem countD_sensorGauges (d : MetricDesc) (dev : Device) (s : String) :
    countD d (sensorGauges dev s) = if fieldPresent d dev then 1 else 0 := by
  cases d <;>
    simp [sensorGauges, gaugeFields, List.flatMap_cons, List.flatMap_nil,
      countD_append, countD_optMetric, fieldPresent]

/-- C5: the staleness policy of `collectData`: nothing when the capture
timestamp is absent; nothing when `now - captureTimestamp` exceeds the
threshold (an age exactly equal to the threshold still emits, since the
source tests with strict `>`); otherwise the `updated` observation with
the capture time as value, followed by exactly one gauge per present
optional field (absent fields skipped individually), all labelled with
the entity's module name and its owning station's name. -/
theorem c5_staleness_policy (staleThreshold now : Int) (device : Device)
    (stationName : String) :
    (device.dashboardData.LastMeasure = none →
      collectData staleThreshold now device stationName = [])
    ∧ (∀ lm, device.dashboardData.LastMeasure = some lm →
        staleThreshold < now - lm →
        collectData staleThreshold now device stationName = [])
    ∧ (∀ lm, device.dashboardData.LastMeasure = some lm →
        now - lm ≤ staleThreshold →
        collectData staleThreshold now device stationName =
          ⟨.updated, lm, [device.ModuleName, stationName]⟩ ::
            sensorGauges device stationName
        ∧ (∀ d, countD d (sensorGauges device stationName) =
            if fieldPresent d device then 1 else 0)
        ∧ (∀ m ∈ sensorGauges device stationName,
            m.labels = [device.ModuleName, stationName])) := by
  refine ⟨fun h => collectData_of_none h,
    fun lm h hs => collectData_of_stale h hs,
    fun lm h hf => ⟨collectData_of_fresh h hf,
      fun d => countD_sensorGauges d device stationName,
      fun m hm => labels_of_mem_sensorGauges hm⟩⟩

/-- Station with one present field (temperature 21) captured at t = 20. -/
def devC5 : Device :=
  { StationName := "S", ModuleName := "M", BatteryPercent := none,
    WifiStatus := none, RFStatus := none,
    dashboardData :=
      { Temperature := some 21, Humidity := none, CO2 := none, Noise := none,
        Pressure := none, WindStrength := none, WindAngle := none,
        Rain := none, LastMeasure := some 20 },
    LinkedModules := [] }

/-- Witness for C5: at threshold 120 and t = 130 the age 110 is fresh,
so `devC5` emits its `updated` observation followed by its gauges. -/
theorem c5_staleness_policy_witness :
    collectData 120 130 devC5 "S" =
      ⟨.updated, 20, ["M", "S"]⟩ :: sensorGauges devC5 "S" :=
  ((c5_staleness_policy 120 130 devC5 "S").2.2 20 rfl (by decide)).1

theorem updatedPairs_append (a b : List Metric) :
    updatedPairs (a ++ b) = updatedPairs a ++ updatedPairs b := by
  simp [updatedPairs, List.filter_append]

theorem filter_updated_sensorGauges (dev : Device) (s : String) :
    (sensorGauges dev s).filter (fun m => m.desc == .updated) = [] :=
  List.filter_eq_nil_iff.mpr fun m hm => by
    simpa using updated_not_mem_sensorGauges hm

theorem updatedPairs_collectData (t n : Int) (dev : Device) (s : String) :
    updatedPairs (collectData t n dev s) =
      if freshB t n dev then [[dev.ModuleName, s]] else [] := by
  cases hl : dev.dashboardData.LastMeasure with
  | none =>
    rw [collectData_of_none hl]
    simp [freshB, hl, updatedPairs]
  | some lm =>
    by_cases hs : t < n - lm
    · rw [collectData_of_stale hl hs]
      have hfr : freshB t n dev = false := by
        simp only [freshB, hl, decide_eq_false_iff_not]
        omega
      rw [hfr]
      simp [updatedPairs]
    · have hf := not_lt.mp hs
      rw [collectData_of_fresh hl hf]
      have hfr : freshB t n dev = true := by
        simp only [freshB, hl, decide_eq_true_eq]
        omega
      rw [hfr]
      simp [updatedPairs, List.filter_cons, filter_updated_sensorGauges]

theorem updatedPairs_flatMap (t n : Int) (s : String) (l : List Device)
    (h : ∀ m ∈ l, freshB t n m = true) :
    updatedPairs (l.flatMap (fun m => collectData t n m s)) =
      l.map (fun m => [m.ModuleName, s]) := by
  induction l with
  | nil => rfl
  | cons a l ih =>
    rw [List.flatMap_cons, updatedPairs_append, updatedPairs_collectData,
      if_pos (h a (List.mem_cons_self a l)), List.map_cons,
      ih (fun m hm => h m (List.mem_cons_of_mem a hm))]
    rfl

theorem mem_allEntities_cons {e a : Device} {l : List Device} :
    e ∈ allEntities (a :: l) ↔
      e = a ∨ e ∈ a.LinkedModules ∨ e ∈ allEntities l := by
  simp [allEntities, List.flatMap_cons, List.mem_append, List.mem_cons]

/-- Label pairs of the `updated` observations of the station loop of
`Collect`, when every entity is fresh: exactly the entity pairs, in
visiting order. -/
theorem updatedPairs_stations (t n : Int) (devs : List Device)
    (hfresh : ∀ e ∈ allEntities devs, freshB t n e = true) :
    updatedPairs (devs.flatMap (fun dev =>
        collectData t n dev dev.StationName
        ++ dev.LinkedModules.flatMap
            (fun m => collectData t n m dev.StationName))) =
      entityPairs devs := by
  induction devs with
  | nil => rfl
  | cons a l ih =>
    have hfa : freshB t n a = true :=
      hfresh a (mem_allEntities_cons.mpr (Or.inl rfl))
    have hfm : ∀ m ∈ a.LinkedModules, freshB t n m = true :=
      fun m hm => hfresh m (mem_allEntities_cons.mpr (Or.inr (Or.inl hm)))
    have hfl : ∀ e ∈ allEntities l, freshB t n e = true :=
      fun e he => hfresh e (mem_allEntities_cons.mpr (Or.inr (Or.inr he)))
    rw [List.flatMap_cons, updatedPairs_append, updatedPairs_append,
      updatedPairs_collectData, if_pos hfa,
      updatedPairs_flatMap t n a.StationName a.LinkedModules hfm, ih hfl]
    simp [entityPairs, List.flatMap_cons]

theorem updatedPairs_collectGlobals (c : Collector) :
    updatedPairs (collectGlobals c) = [] := rfl

theorem entityPairs_length (devs : List Device) :
    (entityPairs devs).length = (allEntities devs).length := by
  induction devs with
  | nil => rfl
  | cons a l ih =>
    have h1 : entityPairs (a :: l) =
        ([a.ModuleName, a.StationName]
          :: a.LinkedModules.map (fun m => [m.ModuleName, a.StationName]))
        ++ entityPairs l := by
      simp [entityPairs, List.flatMap_cons]
    have h2 : allEntities (a :: l) = (a :: a.LinkedModules) ++ allEntities l := by
      simp [allEntities, List.flatMap_cons]
    rw [h1, h2, List.length_append, List.length_append, ih]
    simp [List.length_cons, List.length_map]

/-- C6 (amended): when every entity of the published snapshot is fresh,
a scrape emits exactly one `sensor_updated` observation per entity
(N stations plus M modules) whose label pairs are exactly the entities'
(module name, owning station name) pairs in visiting order; these label
pairs are pairwise distinct whenever those name pairs are pairwise
distinct — but not unconditionally, see the counterexample. -/
theorem c6_updated_observations (c : Collector) (now : Int) (devs : List Device)
    (hc : c.cachedData = some devs)
    (hfresh : ∀ e ∈ allEntities devs, freshB c.staleThreshold now e = true) :
    updatedPairs (Collect c now).metrics = entityPairs devs
    ∧ (updatedPairs (Collect c now).metrics).length = (allEntities devs).length
    ∧ ((entityPairs devs).Nodup → (updatedPairs (Collect c now).metrics).Nodup) := by
  have hmain : updatedPairs (Collect c now).metrics = entityPairs devs := by
    show updatedPairs (collectGlobals c ++ collectSensors c now) = entityPairs devs
    rw [updatedPairs_append, updatedPairs_collectGlobals, List.nil_append]
    simp only [collectSensors, hc]
    exact updatedPairs_stations c.staleThreshold now devs hfresh
  exact ⟨hmain, by rw [hmain, entityPairs_length], fun h => hmain ▸ h⟩

/-- Module of station "S" named "M", fresh at t = 100. -/
def modM : Device :=
  { StationName := "S", ModuleName := "M", BatteryPercent := none,
    WifiStatus := none, RFStatus := none,
    dashboardData :=
      { Temperature := none, Humidity := none, CO2 := none, Noise := none,
        Pressure := none, WindStrength := none, WindAngle := none,
        Rain := none, LastMeasure := some 100 },
    LinkedModules := [] }

/-- Station "S" owning one module named "M", everything fresh at t = 100. -/
def devC6 : Device :=
  { StationName := "S", ModuleName := "S", BatteryPercent := none,
    WifiStatus := none, RFStatus := none,
    dashboardData :=
      { Temperature := none, Humidity := none, CO2 := none, Noise := none,
        Pressure := none, WindStrength := none, WindAngle := none,
        Rain := none, LastMeasure := some 100 },
    LinkedModules := [modM] }

/-- Collector publishing the snapshot `[devC6]`. -/
def cC6 : Collector :=
  { refreshInterval := 60, staleThreshold := 120, lastRefresh := some 100,
    lastRefreshError := none, cacheTimestamp := some 100,
    cachedData := some [devC6] }

/-- Witness for C6 at a snapshot with one station and one module. -/
theorem c6_updated_observations_witness :
    updatedPairs (Collect cC6 100).metrics = entityPairs [devC6] :=
  (c6_updated_observations cC6 100 [devC6] rfl (by decide)).1

/-- Station "S" owning two modules both named "M", everything fresh. -/
def devC6dup : Device :=
  { StationName := "S", ModuleName := "S", BatteryPercent := none,
    WifiStatus := none, RFStatus := none,
    dashboardData :=
      { Temperature := none, Humidity := none, CO2 := none, Noise := none,
        Pressure := none, WindStrength := none, WindAngle := none,
        Rain := none, LastMeasure := some 100 },
    LinkedModules := [modM, modM] }

/-- Collector publishing the snapshot `[devC6dup]`. -/
def cC6dup : Collector :=
  { refreshInterval := 60, staleThreshold := 120, lastRefresh := some 100,
    lastRefreshError := none, cacheTimestamp := some 100,
    cachedData := some [devC6dup] }

/-- Counterexample to C6 as stated: a published snapshot with one
station and two modules that share the module name "M" (nothing in the
code forbids equal names) yields the promised N + M = 3 `sensor_updated`
observations, but two of them carry the same (module, station) label
pair ("M", "S"). -/
theorem c6_duplicate_label_pairs :
    (updatedPairs (Collect cC6dup 100).metrics).length = 3
    ∧ ¬ (updatedPairs (Collect cC6dup 100).metrics).Nodup := by
  have h : updatedPairs (Collect cC6dup 100).metrics =
      [["S", "S"], ["M", "S"], ["M", "S"]] := rfl
  rw [h]
  exact ⟨rfl, by decide⟩

/-- Collector publishing a snapshot with the single station `devC5`,
whose `ModuleName` "M" differs from its `StationName` "S". -/
def cC9 : Collector :=
  { refreshInterval := 60, staleThreshold := 120, lastRefresh := some 100,
    lastRefreshError := none, cacheTimestamp := some 100,
    cachedData := some [devC5] }

/-- Counterexample to C9 as stated: the station `devC5` is emitted as
its own sensor, but the module label of its sole `updated` observation
is its `ModuleName` "M", not its station name "S". -/
theorem c9_module_label_not_station_name :
    updatedPairs (Collect cC9 100).metrics = [["M", "S"]] ∧ "M" ≠ "S" :=
  ⟨rfl, by decide⟩

/-- C9 (amended): for every station of any published snapshot, emitted
as its own sensor by the station-level `collectData` call of `Collect`,
every one of its observations carries the label pair (the station's
`ModuleName` field, the station's `StationName`) — so the module label
equals the station's own name only when `ModuleName = StationName` —
and every one of those observations is part of the produced sample. -/
theorem c9_station_labels (c : Collector) (now : Int) (devs : List Device)
    (hc : c.cachedData = some devs) (dev : Device) (hdev : dev ∈ devs) :
    (∀ m ∈ collectData c.staleThreshold now dev dev.StationName,
      m.labels = [dev.ModuleName, dev.StationName])
    ∧ ∀ m ∈ collectData c.staleThreshold now dev dev.StationName,
        m ∈ (Collect c now).metrics := by
  refine ⟨fun m hm => labels_of_mem_collectData hm, fun m hm => ?_⟩
  have hs : m ∈ collectSensors c now := by
    simp only [collectSensors, hc]
    exact List.mem_flatMap.mpr ⟨dev, hdev, List.mem_append_left _ hm⟩
  exact List.mem_append_right (collectGlobals c) hs

/-- Witness for C9 (amended) at the collector `cC6`, whose snapshot
station `devC6` owns a linked module: the station's own observations
carry the labels of its module-name field and appear in the sample. -/
theorem c9_station_labels_witness :
    (∀ m ∈ collectData cC6.staleThreshold 100 devC6 devC6.StationName,
      m.labels = [devC6.ModuleName, devC6.StationName])
    ∧ ∀ m ∈ collectData cC6.staleThreshold 100 devC6 devC6.StationName,
        m ∈ (Collect cC6 100).metrics :=
  c9_station_labels cC6 100 [devC6] rfl devC6 (List.mem_cons_self devC6 [])

/-- C10: in every produced sample, a sensor gauge observation (one of
the eleven gauge descriptors, including the device-level battery, wifi
and RF gauges) exists only together with an `updated` observation
carrying the same (module, station) label pair — in particular nothing
is emitted for an entity whose capture timestamp is absent or stale,
since then `collectData` emits neither. -/
theorem c10_gauge_implies_updated (c : Collector) (now : Int) (m : Metric)
    (hmem : m ∈ (Collect c now).metrics) (hd : m.desc ∈ gaugeDescs) :
    ∃ u ∈ (Collect c now).metrics,
      u.desc = .updated ∧ u.labels = m.labels := by
  have heq : (Collect c now).metrics = collectGlobals c ++ collectSensors c now := rfl
  rw [heq] at hmem ⊢
  rcases List.mem_append.mp hmem with hg | hs
  · exfalso
    simp only [collectGlobals, List.mem_cons, List.not_mem_nil, or_false] at hg
    rcases hg with rfl | rfl | rfl <;> simp [gaugeDescs] at hd
  · cases hcd : c.cachedData with
    | none =>
      rw [collectSensors, hcd] at hs
      exact absurd hs (List.not_mem_nil m)
    | some devs =>
      simp only [collectSensors, hcd] at hs
      obtain ⟨dev, hdev, hmem2⟩ := List.mem_flatMap.mp hs
      rcases List.mem_append.mp hmem2 with h1 | h2
      · obtain ⟨lm, hu⟩ := updated_mem_collectData_of_mem h1
        refine ⟨⟨.updated, lm, [dev.ModuleName, dev.StationName]⟩, ?_, rfl,
          (labels_of_mem_collectData h1).symm⟩
        apply List.mem_append_right
        simp only [collectSensors, hcd]
        exact List.mem_flatMap.mpr ⟨dev, hdev, List.mem_append_left _ hu⟩
      · obtain ⟨md, hmd, h3⟩ := List.mem_flatMap.mp h2
        obtain ⟨lm, hu⟩ := updated_mem_collectData_of_mem h3
        refine ⟨⟨.updated, lm, [md.ModuleName, dev.StationName]⟩, ?_, rfl,
          (labels_of_mem_collectData h3).symm⟩
        apply List.mem_append_right
        simp only [collectSensors, hcd]
        exact List.mem_flatMap.mpr ⟨dev, hdev,
          List.mem_append_right _ (List.mem_flatMap.mpr ⟨md, hmd, hu⟩)⟩

/-- Witness for C10: the temperature gauge of `devC5` in the sample of
`cC9` is accompanied by an `updated` observation with the same labels. -/
theorem c10_gauge_implies_updated_witness :
    ∃ u ∈ (Collect cC9 100).metrics,
      u.desc = .updated ∧ u.labels = (Metric.mk .temp 21 ["M", "S"]).labels :=
  c10_gauge_implies_updated cC9 100 ⟨.temp, 21, ["M", "S"]⟩ (by decide) (by decide)
